import Mathlib

/-!
# Singleton logging facade (`logger.go`)

A shallow embedding of package `logger`: the package-level variables `once`
and `logger`, the initialiser `UseLogger` and the methods `Close`, `Info`,
`Error`, `Warn`, `Debug` of `*Logger`.

Pointers are heap indices (`Option Nat`, `none` is Go's `nil`).  A Go panic
is the `some` payload of a returned `Option String`, or `Except.error`.
The parts of `go.uber.org/zap` and of `sync` that the facade calls are
modelled in the first section; whether `cfg.Build` succeeds depends on the
file system and is a parameter of every `UseLogger` call.
-/

namespace LoggerFacade

/-! ## The collaborators: zapcore levels, `zap.Config`, the engine, `sync.Once` -/

/-- Constant `zapcore.DebugLevel`. -/
def DebugLevel : Int := -1

/-- Constant `zapcore.InfoLevel` (the zero value of `zapcore.Level`). -/
def InfoLevel : Int := 0

/-- Constant `zapcore.WarnLevel`. -/
def WarnLevel : Int := 1

/-- Constant `zapcore.ErrorLevel`. -/
def ErrorLevel : Int := 2

/-- The fields of `zapcore.EncoderConfig` that `UseLogger` sets (lines 94-104);
the three encoder functions are recorded by name, the time encoder by its
layout string. -/
structure EncoderConfig where
  TimeKey : String
  LevelKey : String
  MessageKey : String
  CallerKey : String
  EncodeLevel : String
  EncodeTime : String
  EncodeCaller : String
  deriving DecidableEq, Repr

/-- The fields of `zap.Config` that `UseLogger` sets (lines 88-105). -/
structure Config where
  Encoding : String
  Level : Int
  OutputPaths : List String
  ErrorOutputPaths : List String
  Development : Bool
  EncoderConfig : EncoderConfig
  deriving DecidableEq, Repr

/-- A `zap.Field`: a key with its rendered value. -/
structure Field where
  key : String
  value : String
  deriving DecidableEq, Repr

/-- One log record handed to the engine. -/
structure Entry where
  level : Int
  message : String
  fields : List Field
  deriving DecidableEq, Repr

/-- Modelled from the spec: the logging engine `*zap.Logger` of the external
package go.uber.org/zap, which is not part of this repository.  An engine keeps
the configuration it was built from, the records it has accepted (in order)
and the number of flushes requested. -/
structure ZapLogger where
  cfg : Config
  entries : List Entry
  syncs : Nat
  deriving DecidableEq, Repr

/-- Modelled from the spec: the engine "applies its configured threshold filter
and writes to all configured destinations if the severity passes"; "messages
below threshold are silently dropped by the engine".  The threshold test is
zapcore's `lvl >= threshold`. -/
def ZapLogger.log (z : ZapLogger) (lvl : Int) (msg : String) (fields : List Field) : ZapLogger :=
  if z.cfg.Level ≤ lvl then { z with entries := z.entries ++ [⟨lvl, msg, fields⟩] } else z

/-- Engine method `(*zap.Logger).Debug`. -/
def ZapLogger.Debug (z : ZapLogger) (msg : String) (fields : List Field) : ZapLogger :=
  z.log DebugLevel msg fields

/-- Engine method `(*zap.Logger).Info`. -/
def ZapLogger.Info (z : ZapLogger) (msg : String) (fields : List Field) : ZapLogger :=
  z.log InfoLevel msg fields

/-- Engine method `(*zap.Logger).Warn`. -/
def ZapLogger.Warn (z : ZapLogger) (msg : String) (fields : List Field) : ZapLogger :=
  z.log WarnLevel msg fields

/-- Engine method `(*zap.Logger).Error`. -/
def ZapLogger.Error (z : ZapLogger) (msg : String) (fields : List Field) : ZapLogger :=
  z.log ErrorLevel msg fields

/-- Modelled from the spec: `(*zap.Logger).Sync` "flushes any buffered output";
it "does not destroy the singleton or prevent further log calls". -/
def ZapLogger.Sync (z : ZapLogger) : ZapLogger :=
  { z with syncs := z.syncs + 1 }

/-- Modelled from the spec: the records an engine has written to the
destination named `dest`; application records go to every configured output
path and to no other destination. -/
def ZapLogger.writtenTo (z : ZapLogger) (dest : String) : List Entry :=
  if dest ∈ z.cfg.OutputPaths then z.entries else []

/-- The outcome of `cfg.Build(zap.AddCaller())` as far as the facade can see
it: `none` when the engine is constructed, `some err` when `err != nil`. -/
abbrev Build := Config → Option String

/-! ## Package state -/

/-- The struct `Logger` (lines 13-15); `instance_` is its field `instance`, a
pointer to the engine. -/
structure Logger where
  instance_ : Option Nat
  deriving DecidableEq, Repr

/-- The state of the package: the variables `once` (its done flag) and
`logger` (lines 17-18), the heap of `Logger` structs and of engines, and a
counter of the calls of `cfg.Build` made so far. -/
structure State where
  once : Bool
  logger : Option Nat
  loggers : List Logger
  engines : List ZapLogger
  buildCalls : Nat
  deriving DecidableEq, Repr

/-- The state at process start: `once` not done, `logger` nil, empty heap. -/
def State.init : State :=
  { once := false, logger := none, loggers := [], engines := [], buildCalls := 0 }

/-- Method `(*sync.Once).Do` on the variable `once`, run sequentially: the
body runs only while the done flag is unset, and the flag is set when the body
returns and also when it panics (the store is deferred), so that later calls
return without running the body.  The first component is the panic, if any. -/
def onceDo (s : State) (f : State → Option String × State) : Option String × State :=
  if s.once then (none, s)
  else
    let r := f s
    (r.1, { r.2 with once := true })

/-! ## `UseLogger` (lines 49-115) -/

/-- The switch on `encFormat` (lines 51-59). -/
def encodingOf (encFormat : String) : String :=
  match encFormat with
  | "console" => "console"
  | "json" => "json"
  | _ => "json"

/-- The switch on `level` (lines 62-74). -/
def logLevelOf (level : String) : Int :=
  match level with
  | "debug" => DebugLevel
  | "info" => InfoLevel
  | "warn" => WarnLevel
  | "error" => ErrorLevel
  | _ => InfoLevel

/-- The choice of `outputs` (lines 77-84). -/
def outputsOf (logFile : String) (outputTerminal : Bool) : List String :=
  if outputTerminal then ["stdout", logFile] else [logFile]

/-- The literal `zap.Config{...}` of lines 88-105. -/
def mkConfig (encoding : String) (logLevel : Int) (outputs : List String) : Config :=
  { Encoding := encoding
    Level := logLevel
    OutputPaths := outputs
    ErrorOutputPaths := ["stderr"]
    Development := true
    EncoderConfig :=
      { TimeKey := "time"
        LevelKey := "level"
        MessageKey := "message"
        CallerKey := "caller"
        EncodeLevel := "CapitalLevelEncoder"
        EncodeTime := "2006-01-02 15:04:05"
        EncodeCaller := "ShortCallerEncoder" } }

/-- The function literal passed to `once.Do` (lines 87-113): build the engine
from the configuration; panic with the error if the build fails, otherwise
allocate `&Logger{instance: l}` and store it in `logger`. -/
def useLoggerBody (build : Build) (encoding : String) (logLevel : Int)
    (outputs : List String) (s : State) : Option String × State :=
  let cfg := mkConfig encoding logLevel outputs
  let s1 := { s with buildCalls := s.buildCalls + 1 }
  match build cfg with
  | some err => (some err, s1)
  | none =>
    let l := s1.engines.length
    let p := s1.loggers.length
    (none, { s1 with
      engines := s1.engines ++ [⟨cfg, [], 0⟩]
      loggers := s1.loggers ++ [⟨some l⟩]
      logger := some p })

/-- The function `UseLogger`.  The result is `Except.error err` when the call
panics with `err`, and `Except.ok p` when it returns the pointer `p`, which is
the value of the variable `logger` after `once.Do`. -/
def UseLogger (build : Build) (s : State) (encFormat logFile : String)
    (outputTerminal : Bool) (level : String) : Except String (Option Nat) × State :=
  let encoding := encodingOf encFormat
  let logLevel := logLevelOf level
  let outputs := outputsOf logFile outputTerminal
  let r := onceDo s (useLoggerBody build encoding logLevel outputs)
  match r.1 with
  | some err => (Except.error err, r.2)
  | none => (Except.ok r.2.logger, r.2)

/-- The configuration `UseLogger` hands to `cfg.Build` for its four arguments. -/
def configOf (encFormat logFile : String) (outputTerminal : Bool) (level : String) : Config :=
  mkConfig (encodingOf encFormat) (logLevelOf level) (outputsOf logFile outputTerminal)

/-! ## The methods of `*Logger` (lines 121-159) -/

/-- The expression `l.instance.m(...)` for an engine method `m`: dereference
the receiver and its `instance` field and run `m` on the engine.  A nil (or
dangling) pointer on the way is a run-time panic. -/
def Logger.onInstance (s : State) (l : Option Nat) (m : ZapLogger → ZapLogger) :
    Except String State :=
  match l with
  | none => Except.error "nil pointer dereference"
  | some p =>
    match s.loggers[p]? with
    | none => Except.error "invalid pointer"
    | some lg =>
      match lg.instance_ with
      | none => Except.error "nil pointer dereference"
      | some e =>
        match s.engines[e]? with
        | none => Except.error "invalid pointer"
        | some z => Except.ok { s with engines := s.engines.set e (m z) }

/-- Method `Close` (lines 121-123): `_ = l.instance.Sync()`. -/
def Logger.Close (s : State) (l : Option Nat) : Except String State :=
  Logger.onInstance s l ZapLogger.Sync

/-- Method `Info` (lines 133-135). -/
def Logger.Info (s : State) (l : Option Nat) (msg : String) (fields : List Field) :
    Except String State :=
  Logger.onInstance s l (fun z => z.Info msg fields)

/-- Method `Error` (lines 145-147). -/
def Logger.Error (s : State) (l : Option Nat) (msg : String) (fields : List Field) :
    Except String State :=
  Logger.onInstance s l (fun z => z.Error msg fields)

/-- Method `Warn` (lines 151-153). -/
def Logger.Warn (s : State) (l : Option Nat) (msg : String) (fields : List Field) :
    Except String State :=
  Logger.onInstance s l (fun z => z.Warn msg fields)

/-- Method `Debug` (lines 157-159). -/
def Logger.Debug (s : State) (l : Option Nat) (msg : String) (fields : List Field) :
    Except String State :=
  Logger.onInstance s l (fun z => z.Debug msg fields)

/-- The engine behind a handle: `*(l.instance)`, when both pointers are valid. -/
def engineOf (s : State) (l : Option Nat) : Option ZapLogger :=
  match l with
  | none => none
  | some p =>
    match s.loggers[p]? with
    | none => none
    | some lg =>
      match lg.instance_ with
      | none => none
      | some e => s.engines[e]?

/-! ## Histories of calls -/

/-- The four severities that have an entry point on `*Logger`. -/
inductive Severity
  | Debug
  | Info
  | Warn
  | Error
  deriving DecidableEq, Repr

/-- The zapcore level of a severity. -/
def Severity.level : Severity → Int
  | Severity.Debug => DebugLevel
  | Severity.Info => InfoLevel
  | Severity.Warn => WarnLevel
  | Severity.Error => ErrorLevel

/-- The entry point of `*Logger` for a severity. -/
def Logger.entry (v : Severity) (s : State) (l : Option Nat) (msg : String)
    (fields : List Field) : Except String State :=
  match v with
  | Severity.Debug => Logger.Debug s l msg fields
  | Severity.Info => Logger.Info s l msg fields
  | Severity.Warn => Logger.Warn s l msg fields
  | Severity.Error => Logger.Error s l msg fields

/-- One call into the package made by the host application. -/
inductive Call
  | useLogger (build : Build) (encFormat logFile : String) (outputTerminal : Bool)
      (level : String)
  | close (l : Option Nat)
  | log (v : Severity) (l : Option Nat) (msg : String) (fields : List Field)

/-- Whether a call is a call of `UseLogger`. -/
def Call.isUseLogger : Call → Bool
  | Call.useLogger _ _ _ _ _ => true
  | _ => false

/-- The state an `Except` result leaves behind: the new state, or the old one
when the call panicked before changing anything. -/
def stateAfter (s : State) (r : Except String State) : State :=
  match r with
  | Except.ok s1 => s1
  | Except.error _ => s

/-- The package state after one call; a panic is recovered by the caller and
the state is the one the panicking call left. -/
def step (s : State) (c : Call) : State :=
  match c with
  | Call.useLogger build encFormat logFile outputTerminal level =>
    (UseLogger build s encFormat logFile outputTerminal level).2
  | Call.close l => stateAfter s (Logger.Close s l)
  | Call.log v l msg fields => stateAfter s (Logger.entry v s l msg fields)

/-- The package state after a history of calls, oldest first. -/
def run (s : State) (calls : List Call) : State :=
  calls.foldl step s

/-- Whether the entry point of severity `v`, called on handle `l`, makes the
engine behind `l` accept a new record. -/
def emits (s : State) (l : Option Nat) (v : Severity) (msg : String)
    (fields : List Field) : Bool :=
  match Logger.entry v s l msg fields with
  | Except.error _ => false
  | Except.ok s1 =>
    match engineOf s l, engineOf s1 l with
    | some z, some z1 => decide (z1.entries = z.entries ++ [⟨v.level, msg, fields⟩])
    | _, _ => false

/-- The reachable states in which a handle is stored: the done flag is set,
`logger` points to the one `Logger` struct, which points to the one engine,
built by the one call of `cfg.Build` from the configuration `cfg`. -/
def Initialised (cfg : Config) (s : State) : Prop :=
  s.once = true ∧ s.logger = some 0 ∧ s.buildCalls = 1 ∧ s.loggers = [⟨some 0⟩] ∧
    ∃ z : ZapLogger, s.engines = [z] ∧ z.cfg = cfg

/-- The reachable states after a first call whose build failed: the done flag
is set and `logger` is still nil. -/
def Failed (s : State) : Prop :=
  s.once = true ∧ s.logger = none ∧ s.loggers = [] ∧ s.engines = []

/-! ## Basic facts -/

theorem encodingOf_eq (f : String) :
    encodingOf f = if f = "console" then "console" else "json" := by
  unfold encodingOf
  split <;> simp_all

theorem logLevelOf_eq (s : String) :
    logLevelOf s =
      if s = "debug" then DebugLevel else if s = "info" then InfoLevel
      else if s = "warn" then WarnLevel else if s = "error" then ErrorLevel
      else InfoLevel := by
  unfold logLevelOf
  split <;> simp_all

theorem log_cfg (z : ZapLogger) (lvl : Int) (msg : String) (fields : List Field) :
    (z.log lvl msg fields).cfg = z.cfg := by
  unfold ZapLogger.log
  split <;> rfl

theorem UseLogger_done (b : Build) (s : State) (f p : String) (t : Bool) (l : String)
    (h : s.once = true) : UseLogger b s f p t l = (Except.ok s.logger, s) := by
  simp [UseLogger, onceDo, h]

theorem UseLogger_first_ok (b : Build) (s : State) (f p : String) (t : Bool) (l : String)
    (h : s.once = false) (hb : b (configOf f p t l) = none) :
    UseLogger b s f p t l =
      (Except.ok (some s.loggers.length),
        { once := true
          logger := some s.loggers.length
          loggers := s.loggers ++ [⟨some s.engines.length⟩]
          engines := s.engines ++ [⟨configOf f p t l, [], 0⟩]
          buildCalls := s.buildCalls + 1 }) := by
  unfold configOf at hb
  simp [UseLogger, onceDo, h, useLoggerBody, hb, configOf]

theorem UseLogger_first_err (b : Build) (s : State) (f p : String) (t : Bool) (l : String)
    (err : String) (h : s.once = false) (hb : b (configOf f p t l) = some err) :
    UseLogger b s f p t l =
      (Except.error err, { s with once := true, buildCalls := s.buildCalls + 1 }) := by
  unfold configOf at hb
  simp [UseLogger, onceDo, h, useLoggerBody, hb]

theorem onInstance_ok (s s1 : State) (l : Option Nat) (m : ZapLogger → ZapLogger)
    (h : Logger.onInstance s l m = Except.ok s1) :
    ∃ p lg e z, l = some p ∧ s.loggers[p]? = some lg ∧ lg.instance_ = some e ∧
      s.engines[e]? = some z ∧ s1 = { s with engines := s.engines.set e (m z) } := by
  unfold Logger.onInstance at h
  split at h
  · cases h
  · rename_i p
    split at h
    · cases h
    · rename_i lg hlg
      split at h
      · cases h
      · rename_i e he
        split at h
        · cases h
        · rename_i z hz
          refine ⟨p, lg, e, z, rfl, hlg, he, hz, ?_⟩
          cases h
          rfl

/-- A call of an entry point or of `Close` either leaves the state alone or
replaces one engine by an engine with the same configuration. -/
theorem step_method (s : State) (c : Call) (hc : c.isUseLogger = false) :
    step s c = s ∨
      ∃ (p e : Nat) (z z1 : ZapLogger), s.loggers[p]? = some (Logger.mk (some e)) ∧ s.engines[e]? = some z ∧ z1.cfg = z.cfg ∧
        step s c = { s with engines := s.engines.set e z1 } := by
  have key : ∀ (l : Option Nat) (m : ZapLogger → ZapLogger), (∀ z, (m z).cfg = z.cfg) →
      (stateAfter s (Logger.onInstance s l m) = s ∨
        ∃ (p e : Nat) (z z1 : ZapLogger), s.loggers[p]? = some (Logger.mk (some e)) ∧ s.engines[e]? = some z ∧ z1.cfg = z.cfg ∧
          stateAfter s (Logger.onInstance s l m) = { s with engines := s.engines.set e z1 }) := by
    intro l m hm
    cases hr : Logger.onInstance s l m with
    | error e => left; rfl
    | ok s1 =>
      obtain ⟨p, lg, e, z, _, hlg, he, hz, hs1⟩ := onInstance_ok s s1 l m hr
      right
      refine ⟨p, e, z, m z, ?_, hz, hm z, ?_⟩
      · rw [hlg, ← he]
      · simp [stateAfter, hs1]
  cases c with
  | useLogger b f p t l => simp [Call.isUseLogger] at hc
  | close l => exact key l ZapLogger.Sync (fun z => rfl)
  | log v l msg fields =>
    cases v
    · exact key l _ (fun z => log_cfg z _ msg fields)
    · exact key l _ (fun z => log_cfg z _ msg fields)
    · exact key l _ (fun z => log_cfg z _ msg fields)
    · exact key l _ (fun z => log_cfg z _ msg fields)

theorem step_useLogger_done (s : State) (c : Call) (hc : c.isUseLogger = true)
    (h : s.once = true) : step s c = s := by
  cases c with
  | useLogger b f p t l => simp [step, UseLogger_done b s f p t l h]
  | close l => simp [Call.isUseLogger] at hc
  | log v l msg fields => simp [Call.isUseLogger] at hc

theorem Initialised_step (cfg : Config) (s : State) (c : Call) (h : Initialised cfg s) :
    Initialised cfg (step s c) := by
  obtain ⟨h1, h2, h3, h4, z0, h5, h6⟩ := h
  cases hc : c.isUseLogger with
  | true =>
    rw [step_useLogger_done s c hc h1]
    exact ⟨h1, h2, h3, h4, z0, h5, h6⟩
  | false =>
    rcases step_method s c hc with hs | ⟨p, e, z, z1, _, hz, hcfg, hs⟩
    · rw [hs]
      exact ⟨h1, h2, h3, h4, z0, h5, h6⟩
    · rw [hs]
      rw [h5] at hz
      cases e with
      | zero =>
        simp at hz
        subst hz
        exact ⟨h1, h2, h3, h4, z1, by simp [h5], by rw [hcfg, h6]⟩
      | succ n => simp at hz

theorem Failed_step (s : State) (c : Call) (h : Failed s) : Failed (step s c) := by
  obtain ⟨h1, h2, h3, h4⟩ := h
  cases hc : c.isUseLogger with
  | true =>
    rw [step_useLogger_done s c hc h1]
    exact ⟨h1, h2, h3, h4⟩
  | false =>
    rcases step_method s c hc with hs | ⟨p, e, z, z1, _, hz, _, _⟩
    · rw [hs]
      exact ⟨h1, h2, h3, h4⟩
    · rw [h4] at hz
      simp at hz

theorem init_step_method (c : Call) (hc : c.isUseLogger = false) :
    step State.init c = State.init := by
  rcases step_method State.init c hc with hs | ⟨p, e, z, z1, _, hz, _, _⟩
  · exact hs
  · simp [State.init] at hz

theorem Initialised_run (cfg : Config) (calls : List Call) :
    ∀ s : State, Initialised cfg s → Initialised cfg (run s calls) := by
  induction calls with
  | nil => intro s h; exact h
  | cons c cs ih => intro s h; exact ih (step s c) (Initialised_step cfg s c h)

/-- Before the first call of `UseLogger` the package is in its start state. -/
theorem run_no_useLogger (calls : List Call) (h : calls.any Call.isUseLogger = false) :
    run State.init calls = State.init := by
  induction calls with
  | nil => rfl
  | cons c cs ih =>
    simp only [List.any_cons, Bool.or_eq_false_iff] at h
    show run (step State.init c) cs = State.init
    rw [init_step_method c h.1]
    exact ih h.2

theorem run_append (s : State) (xs ys : List Call) :
    run s (xs ++ ys) = run (run s xs) ys := by
  simp [run, List.foldl_append]

/-- The state after a first call of `UseLogger` whose build succeeds. -/
theorem Initialised_first (b : Build) (f p : String) (t : Bool) (l : String)
    (hb : b (configOf f p t l) = none) :
    (UseLogger b State.init f p t l).1 = Except.ok (some 0) ∧
      Initialised (configOf f p t l) (UseLogger b State.init f p t l).2 := by
  rw [UseLogger_first_ok b State.init f p t l rfl hb]
  refine ⟨rfl, rfl, rfl, rfl, rfl, ⟨configOf f p t l, [], 0⟩, rfl, rfl⟩

/-- The state after a first call of `UseLogger` whose build fails. -/
theorem Failed_first (b : Build) (f p : String) (t : Bool) (l err : String)
    (hb : b (configOf f p t l) = some err) :
    (UseLogger b State.init f p t l).1 = Except.error err ∧
      Failed (UseLogger b State.init f p t l).2 := by
  rw [UseLogger_first_err b State.init f p t l err rfl hb]
  exact ⟨rfl, rfl, rfl, rfl, rfl⟩

/-- Every reachable state is the start state, a failed state, or an
initialised state; the start state is the one with no `UseLogger` call yet. -/
theorem reachable_cases (calls : List Call) :
    (calls.any Call.isUseLogger = false ∧ run State.init calls = State.init) ∨
      (calls.any Call.isUseLogger = true ∧
        (Failed (run State.init calls) ∨ ∃ cfg, Initialised cfg (run State.init calls))) := by
  induction calls using List.reverseRecOn with
  | nil => left; exact ⟨rfl, rfl⟩
  | append_singleton cs c ih =>
    rw [run_append]
    have hstep : run (run State.init cs) [c] = step (run State.init cs) c := rfl
    rw [hstep]
    rcases ih with ⟨hn, hs⟩ | ⟨hy, hs⟩
    · rw [hs]
      cases hc : c.isUseLogger with
      | false =>
        left
        exact ⟨by simp [hn, hc], init_step_method c hc⟩
      | true =>
        right
        refine ⟨by simp [hc], ?_⟩
        cases c with
        | useLogger b f p t l =>
          show Failed (UseLogger b State.init f p t l).2 ∨
            ∃ cfg, Initialised cfg (UseLogger b State.init f p t l).2
          cases hb : b (configOf f p t l) with
          | none => exact Or.inr ⟨_, (Initialised_first b f p t l hb).2⟩
          | some err => exact Or.inl (Failed_first b f p t l err hb).2
        | close l => simp [Call.isUseLogger] at hc
        | log v l msg fields => simp [Call.isUseLogger] at hc
    · right
      refine ⟨by simp [hy], ?_⟩
      rcases hs with hf | ⟨cfg, hi⟩
      · exact Or.inl (Failed_step _ c hf)
      · exact Or.inr ⟨cfg, Initialised_step cfg _ c hi⟩

/-- In an initialised state the handle is valid and an entry point runs the
engine method of its own severity on the one engine. -/
theorem entry_Initialised (cfg : Config) (s : State) (h : Initialised cfg s) (v : Severity)
    (msg : String) (fields : List Field) :
    ∃ z : ZapLogger, s.engines = [z] ∧ z.cfg = cfg ∧ engineOf s (some 0) = some z ∧
      Logger.entry v s (some 0) msg fields =
        Except.ok { s with engines := [z.log v.level msg fields] } := by
  obtain ⟨_, _, _, h4, z, h5, h6⟩ := h
  refine ⟨z, h5, h6, ?_, ?_⟩
  · simp [engineOf, h4, h5]
  · cases v <;>
      simp [Logger.entry, Logger.Debug, Logger.Info, Logger.Warn, Logger.Error,
        Logger.onInstance, h4, h5, ZapLogger.Debug, ZapLogger.Info, ZapLogger.Warn,
        ZapLogger.Error, Severity.level]

/-- In an initialised state `Close` succeeds and only counts a flush. -/
theorem Close_Initialised (cfg : Config) (s : State) (h : Initialised cfg s) :
    ∃ z : ZapLogger, s.engines = [z] ∧ z.cfg = cfg ∧
      Logger.Close s (some 0) = Except.ok { s with engines := [z.Sync] } := by
  obtain ⟨_, _, _, h4, z, h5, h6⟩ := h
  refine ⟨z, h5, h6, ?_⟩
  simp [Logger.Close, Logger.onInstance, h4, h5]

/-! ## The claims -/

/-- C1 (idempotent singleton).  Let `UseLogger` be called with a first
configuration as the first `UseLogger` call of the process, its build
succeeding, and later (after any further calls) with a second configuration
and any build outcome.  Then the second call returns the same handle as the
first, leaves the whole package state as it found it, `cfg.Build` has been
called exactly once after the first call and still exactly once after the
second, and the engine behind the handle carries the configuration derived
from the first arguments. -/
theorem C1_idempotent_singleton (b1 b2 : Build) (f1 p1 : String) (t1 : Bool) (l1 : String)
    (f2 p2 : String) (t2 : Bool) (l2 : String) (pre mid : List Call)
    (hpre : pre.any Call.isUseLogger = false)
    (hb : b1 (configOf f1 p1 t1 l1) = none) :
    let r1 := UseLogger b1 (run State.init pre) f1 p1 t1 l1
    let r2 := UseLogger b2 (run r1.2 mid) f2 p2 t2 l2
    ∃ h : Nat, r1.1 = Except.ok (some h) ∧ r2.1 = Except.ok (some h) ∧
      r2.2 = run r1.2 mid ∧ r1.2.buildCalls = 1 ∧ r2.2.buildCalls = 1 ∧
      r2.2.engines.length = 1 ∧
      (engineOf r2.2 (some h)).map ZapLogger.cfg = some (configOf f1 p1 t1 l1) := by
  intro r1 r2
  have hr1 : r1 = UseLogger b1 State.init f1 p1 t1 l1 := by
    show UseLogger b1 (run State.init pre) f1 p1 t1 l1 = _
    rw [run_no_useLogger pre hpre]
  obtain ⟨hres, hinit⟩ := Initialised_first b1 f1 p1 t1 l1 hb
  rw [← hr1] at hres hinit
  have hmid := Initialised_run (configOf f1 p1 t1 l1) mid r1.2 hinit
  have hr2 : r2 = (Except.ok (run r1.2 mid).logger, run r1.2 mid) :=
    UseLogger_done b2 (run r1.2 mid) f2 p2 t2 l2 hmid.1
  obtain ⟨_, m2, m3, m4, z, m5, m6⟩ := hmid
  refine ⟨0, hres, ?_, ?_, hinit.2.2.1, ?_, ?_, ?_⟩
  · rw [hr2, m2]
  · rw [hr2]
  · rw [hr2]; exact m3
  · rw [hr2]; simp [m5]
  · rw [hr2]; simp [engineOf, m4, m5, m6]

/-- C1, at a concrete input: a JSON logger on `app.log` at level debug is
built first; after an Info call and a Close, a request for a console logger
on `other.log` at level error returns handle 0 again and the engine is still
the JSON one. -/
theorem C1_idempotent_singleton_witness :
    ∃ h : Nat,
      (UseLogger (fun _ => none) (run State.init []) "json" "app.log" true "debug").1 =
        Except.ok (some h) ∧
      (UseLogger (fun _ => some "denied")
        (run (UseLogger (fun _ => none) (run State.init []) "json" "app.log" true "debug").2
          [Call.log Severity.Info (some 0) "started" [], Call.close (some 0)])
        "console" "other.log" false "error").1 = Except.ok (some h) ∧
      (engineOf (UseLogger (fun _ => some "denied")
        (run (UseLogger (fun _ => none) (run State.init []) "json" "app.log" true "debug").2
          [Call.log Severity.Info (some 0) "started" [], Call.close (some 0)])
        "console" "other.log" false "error").2 (some h)).map ZapLogger.cfg =
        some (configOf "json" "app.log" true "debug") := by
  obtain ⟨h, h1, h2, _, _, _, _, h7⟩ :=
    C1_idempotent_singleton (fun _ => none) (fun _ => some "denied") "json" "app.log" true
      "debug" "console" "other.log" false "error" []
      [Call.log Severity.Info (some 0) "started" [], Call.close (some 0)] rfl rfl
  exact ⟨h, h1, h2, h7⟩

/-- C2 (every returned handle is usable), evaluated where it fails.  The first
call asks for a log file in a directory that does not exist, so the build
fails and the call panics; the caller recovers.  The second call, whose build
would succeed, does not panic, calls `cfg.Build` not at all and returns the
nil pointer; an Info call on that result panics with a nil dereference. -/
theorem C2_nil_handle_after_failed_build :
    let b1 : Build := fun _ => some "open /no/such/dir/app.log: no such file or directory"
    let r1 := UseLogger b1 State.init "json" "/no/such/dir/app.log" false "info"
    let r2 := UseLogger (fun _ => none) r1.2 "json" "app.log" false "info"
    r1.1 = Except.error "open /no/such/dir/app.log: no such file or directory" ∧
      r2.1 = Except.ok none ∧ r2.2 = r1.2 ∧ r2.2.buildCalls = 1 ∧ r2.2.engines = [] ∧
      Logger.Info r2.2 none "started" [] = Except.error "nil pointer dereference" := by
  refine ⟨?_, ?_, ?_, ?_, ?_, ?_⟩ <;> rfl

/-- C3 (initialisation failure is fatal).  In the state reached by any history
of calls, a call of `UseLogger` panics if and only if the history holds no
earlier `UseLogger` call and the build for the call's configuration returns an
error; the panic value is that error and `logger` is nil afterwards.  When the
call is the first and the build succeeds, the call returns a non-nil handle
and that handle is the value stored in `logger`. -/
theorem C3_failure_is_fatal (calls : List Call) (b : Build) (f p : String) (t : Bool)
    (l : String) :
    let r := UseLogger b (run State.init calls) f p t l
    ((∃ err, r.1 = Except.error err) ↔
      (calls.any Call.isUseLogger = false ∧ ∃ err, b (configOf f p t l) = some err)) ∧
    (∀ err, r.1 = Except.error err →
      b (configOf f p t l) = some err ∧ r.2.logger = none) ∧
    (calls.any Call.isUseLogger = false → b (configOf f p t l) = none →
      ∃ h : Nat, r.1 = Except.ok (some h) ∧ r.2.logger = some h) := by
  intro r
  rcases reachable_cases calls with ⟨hn, hs⟩ | ⟨hy, hs⟩
  · have hr : r = UseLogger b State.init f p t l := by
      show UseLogger b (run State.init calls) f p t l = _
      rw [hs]
    cases hb : b (configOf f p t l) with
    | none =>
      have h1 := UseLogger_first_ok b State.init f p t l rfl hb
      rw [← hr] at h1
      refine ⟨?_, ?_, ?_⟩
      · simp [h1, hn]
      · intro err he
        simp [h1] at he
      · intro _ _
        exact ⟨0, by rw [h1]; rfl, by rw [h1]; rfl⟩
    | some e =>
      have h1 := UseLogger_first_err b State.init f p t l e rfl hb
      rw [← hr] at h1
      refine ⟨?_, ?_, ?_⟩
      · simp [h1, hn]
      · intro err he
        rw [h1] at he
        simp at he
        subst he
        exact ⟨rfl, by rw [h1]; rfl⟩
      · intro _ h2
        cases h2
  · have honce : (run State.init calls).once = true := by
      rcases hs with hf | ⟨cfg, hi⟩
      · exact hf.1
      · exact hi.1
    have h1 : r = (Except.ok (run State.init calls).logger, run State.init calls) :=
      UseLogger_done b (run State.init calls) f p t l honce
    refine ⟨?_, ?_, ?_⟩
    · simp [h1, hy]
    · intro err he
      simp [h1] at he
    · intro h2
      rw [hy] at h2
      cases h2

/-- C3, at concrete inputs: the first call with a failing build panics with
the build error and leaves `logger` nil; the first call with a succeeding
build returns the handle it stores. -/
theorem C3_failure_is_fatal_witness :
    ((UseLogger (fun _ => some "permission denied") (run State.init []) "json" "/root/x.log"
        false "info").1 = Except.error "permission denied" ∧
      (UseLogger (fun _ => some "permission denied") (run State.init []) "json" "/root/x.log"
        false "info").2.logger = none) ∧
    ∃ h : Nat,
      (UseLogger (fun _ => none) (run State.init []) "json" "x.log" false "info").1 =
        Except.ok (some h) ∧
      (UseLogger (fun _ => none) (run State.init []) "json" "x.log" false "info").2.logger =
        some h :=
  ⟨⟨rfl, ((C3_failure_is_fatal [] (fun _ => some "permission denied") "json" "/root/x.log"
      false "info").2.1 "permission denied" rfl).2⟩,
    (C3_failure_is_fatal [] (fun _ => none) "json" "x.log" false "info").2.2 rfl rfl⟩

/-- C4 (encoding-format mapping with default).  The encoding of the
configuration `UseLogger` builds is "console" exactly when the format argument
is "console" and "json" for every other string; for a format outside "json"
and "console" the configuration, and the whole effect of the call in any
state, equal those for the format "json".  The engine constructed by a first
call carries this configuration. -/
theorem C4_encoding_mapping (f p : String) (t : Bool) (l : String) :
    ((configOf f p t l).Encoding = "console" ↔ f = "console") ∧
    (f ≠ "console" → (configOf f p t l).Encoding = "json") ∧
    (f ≠ "json" → f ≠ "console" →
      configOf f p t l = configOf "json" p t l ∧
      ∀ (b : Build) (s : State), UseLogger b s f p t l = UseLogger b s "json" p t l) ∧
    (∀ b : Build, b (configOf f p t l) = none →
      engineOf (UseLogger b State.init f p t l).2 (UseLogger b State.init f p t l).2.logger =
        some ⟨configOf f p t l, [], 0⟩) := by
  have henc : (configOf f p t l).Encoding = if f = "console" then "console" else "json" := by
    simp [configOf, mkConfig, encodingOf_eq]
  refine ⟨?_, ?_, ?_, ?_⟩
  · rw [henc]
    by_cases h : f = "console" <;> simp [h]
  · intro h
    rw [henc]
    simp [h]
  · intro _ h2
    have he : encodingOf f = encodingOf "json" := by
      rw [encodingOf_eq, encodingOf_eq]
      simp [h2]
    refine ⟨by simp [configOf, he], ?_⟩
    intro b s
    simp [UseLogger, he]
  · intro b hb
    rw [UseLogger_first_ok b State.init f p t l rfl hb]
    rfl

/-- C4, at concrete inputs: "console" gives console, "JSON" and the empty
string give json, and a call with format "xml" is the call with format "json". -/
theorem C4_encoding_mapping_witness :
    (configOf "console" "a.log" true "info").Encoding = "console" ∧
    (configOf "JSON" "a.log" true "info").Encoding = "json" ∧
    (configOf "" "a.log" true "info").Encoding = "json" ∧
    configOf "xml" "a.log" true "info" = configOf "json" "a.log" true "info" ∧
    engineOf (UseLogger (fun _ => none) State.init "xml" "a.log" true "info").2
        (UseLogger (fun _ => none) State.init "xml" "a.log" true "info").2.logger =
      some ⟨configOf "xml" "a.log" true "info", [], 0⟩ :=
  ⟨(C4_encoding_mapping "console" "a.log" true "info").1.2 rfl,
    (C4_encoding_mapping "JSON" "a.log" true "info").2.1 (by decide),
    (C4_encoding_mapping "" "a.log" true "info").2.1 (by decide),
    ((C4_encoding_mapping "xml" "a.log" true "info").2.2.1 (by decide) (by decide)).1,
    (C4_encoding_mapping "xml" "a.log" true "info").2.2.2 (fun _ => none) rfl⟩

/-- C5 (severity mapping with default).  The threshold of the configuration
`UseLogger` builds is Debug, Info, Warn, Error for the level strings "debug",
"info", "warn", "error" and Info for every other string; for a level outside
those four the configuration, and the whole effect of the call in any state,
equal those for the level "info"; and the four thresholds increase strictly
along debug, info, warn, error. -/
theorem C5_severity_mapping (f p : String) (t : Bool) (l : String) :
    (configOf f p t "debug").Level = DebugLevel ∧
    (configOf f p t "info").Level = InfoLevel ∧
    (configOf f p t "warn").Level = WarnLevel ∧
    (configOf f p t "error").Level = ErrorLevel ∧
    (l ≠ "debug" → l ≠ "info" → l ≠ "warn" → l ≠ "error" →
      (configOf f p t l).Level = InfoLevel ∧
      configOf f p t l = configOf f p t "info" ∧
      ∀ (b : Build) (s : State), UseLogger b s f p t l = UseLogger b s f p t "info") ∧
    ((configOf f p t "debug").Level < (configOf f p t "info").Level ∧
      (configOf f p t "info").Level < (configOf f p t "warn").Level ∧
      (configOf f p t "warn").Level < (configOf f p t "error").Level) ∧
    (∀ b : Build, b (configOf f p t l) = none →
      engineOf (UseLogger b State.init f p t l).2 (UseLogger b State.init f p t l).2.logger =
        some ⟨configOf f p t l, [], 0⟩) := by
  have h12 : DebugLevel < InfoLevel := by decide
  have h23 : InfoLevel < WarnLevel := by decide
  have h34 : WarnLevel < ErrorLevel := by decide
  refine ⟨rfl, rfl, rfl, rfl, ?_, ⟨h12, h23, h34⟩, ?_⟩
  · intro h1 h2 h3 h4
    have hl : logLevelOf l = logLevelOf "info" := by
      rw [logLevelOf_eq l]
      simp [h1, h2, h3, h4]
      rfl
    refine ⟨hl, by simp [configOf, hl], ?_⟩
    intro b s
    simp [UseLogger, hl]
  · intro b hb
    rw [UseLogger_first_ok b State.init f p t l rfl hb]
    rfl

/-- C5, at concrete inputs: "WARN", "trace" and the empty string give the Info
threshold, and a call with level "trace" is the call with level "info". -/
theorem C5_severity_mapping_witness :
    (configOf "json" "a.log" false "WARN").Level = InfoLevel ∧
    (configOf "json" "a.log" false "").Level = InfoLevel ∧
    configOf "json" "a.log" false "trace" = configOf "json" "a.log" false "info" ∧
    engineOf (UseLogger (fun _ => none) State.init "json" "a.log" false "trace").2
        (UseLogger (fun _ => none) State.init "json" "a.log" false "trace").2.logger =
      some ⟨configOf "json" "a.log" false "trace", [], 0⟩ :=
  ⟨((C5_severity_mapping "json" "a.log" false "WARN").2.2.2.2.1
      (by decide) (by decide) (by decide) (by decide)).1,
    ((C5_severity_mapping "json" "a.log" false "").2.2.2.2.1
      (by decide) (by decide) (by decide) (by decide)).1,
    ((C5_severity_mapping "json" "a.log" false "trace").2.2.2.2.1
      (by decide) (by decide) (by decide) (by decide)).2.1,
    (C5_severity_mapping "json" "a.log" false "trace").2.2.2.2.2.2 (fun _ => none) rfl⟩

/-- C6 (severity filtering).  Let the logger be initialised by the first
`UseLogger` call of the process, with level string `s` and a succeeding build,
and let any calls follow.  Then the entry point of severity `v`, called on the
returned handle, makes the engine accept a record if and only if the level of
`v` is at least the threshold mapped from `s`, and otherwise returns leaving
the whole state, hence every destination, as it was; an accepted record is
appended to what the engine has written to the log file, to "stdout" as well
when the terminal flag is true, and to each of its output paths.  With "warn"
exactly Warn and Error produce a record, with "debug" all four do, with
"error" only Error does. -/
theorem C6_severity_filtering (b : Build) (f p : String) (t : Bool) (s : String)
    (pre mid : List Call) (v : Severity) (msg : String) (fields : List Field)
    (hpre : pre.any Call.isUseLogger = false) (hb : b (configOf f p t s) = none) :
    let r := UseLogger b (run State.init pre) f p t s
    let st := run r.2 mid
    ∃ h : Nat, r.1 = Except.ok (some h) ∧
      (emits st (some h) v msg fields = true ↔ logLevelOf s ≤ v.level) ∧
      (¬ logLevelOf s ≤ v.level → Logger.entry v st (some h) msg fields = Except.ok st) ∧
      (logLevelOf s ≤ v.level →
        ∃ (st1 : State) (z z1 : ZapLogger),
          Logger.entry v st (some h) msg fields = Except.ok st1 ∧
          engineOf st (some h) = some z ∧ engineOf st1 (some h) = some z1 ∧
          z1.writtenTo p = z.writtenTo p ++ [⟨v.level, msg, fields⟩] ∧
          (t = true →
            z1.writtenTo "stdout" = z.writtenTo "stdout" ++ [⟨v.level, msg, fields⟩]) ∧
          ∀ dest : String, dest ∈ outputsOf p t →
            z1.writtenTo dest = z.writtenTo dest ++ [⟨v.level, msg, fields⟩]) ∧
      (s = "warn" →
        (emits st (some h) v msg fields = true ↔ (v = Severity.Warn ∨ v = Severity.Error))) ∧
      (s = "debug" → emits st (some h) v msg fields = true) ∧
      (s = "error" → (emits st (some h) v msg fields = true ↔ v = Severity.Error)) := by
  intro r st
  have hr : r = UseLogger b State.init f p t s := by
    show UseLogger b (run State.init pre) f p t s = _
    rw [run_no_useLogger pre hpre]
  obtain ⟨hres, hinit⟩ := Initialised_first b f p t s hb
  rw [← hr] at hres hinit
  have hst : Initialised (configOf f p t s) st := Initialised_run _ mid r.2 hinit
  obtain ⟨z, hz, hcfg, heng, hentry⟩ := entry_Initialised _ st hst v msg fields
  have hlevel : z.cfg.Level = logLevelOf s := by rw [hcfg]; rfl
  have hemit : emits st (some 0) v msg fields = true ↔ logLevelOf s ≤ v.level := by
    unfold emits
    rw [hentry]
    simp only [heng]
    have h1 : engineOf { st with engines := [z.log v.level msg fields] } (some 0) =
        some (z.log v.level msg fields) := by
      simp [engineOf, hst.2.2.2.1]
    rw [h1]
    simp only [decide_eq_true_eq]
    unfold ZapLogger.log
    rw [hlevel]
    by_cases hle : logLevelOf s ≤ v.level <;> simp [hle]
  refine ⟨0, hres, hemit, ?_, ?_, ?_, ?_, ?_⟩
  · intro hlt
    rw [hentry]
    have hlog : z.log v.level msg fields = z := by
      unfold ZapLogger.log
      rw [hlevel]
      simp [hlt]
    rw [hlog, ← hz]
  · intro hle
    have hdests : ∀ dest : String, dest ∈ outputsOf p t →
        (z.log v.level msg fields).writtenTo dest =
          z.writtenTo dest ++ [⟨v.level, msg, fields⟩] := by
      intro dest hdest
      have hmem : dest ∈ z.cfg.OutputPaths := by rw [hcfg]; exact hdest
      unfold ZapLogger.writtenTo
      rw [log_cfg]
      simp only [hmem, if_true]
      unfold ZapLogger.log
      rw [hlevel]
      simp [hle]
    have hfile : p ∈ outputsOf p t := by
      cases t <;> simp [outputsOf]
    refine ⟨_, z, z.log v.level msg fields, hentry, heng, ?_, hdests p hfile, ?_, hdests⟩
    · simp [engineOf, hst.2.2.2.1]
    · intro ht
      apply hdests
      simp [outputsOf, ht]
  · intro hs
    rw [hemit, hs]
    cases v <;> simp [logLevelOf, Severity.level, WarnLevel, DebugLevel, InfoLevel, ErrorLevel]
  · intro hs
    rw [hemit, hs]
    cases v <;> simp [logLevelOf, Severity.level, WarnLevel, DebugLevel, InfoLevel, ErrorLevel]
  · intro hs
    rw [hemit, hs]
    cases v <;> simp [logLevelOf, Severity.level, WarnLevel, DebugLevel, InfoLevel, ErrorLevel]

/-- C6, at a concrete input: on a logger initialised at level "warn" with
terminal echo, a Warn call appends its record to what has been written to
`a.log` and to "stdout", while an Info call leaves the state as it was. -/
theorem C6_severity_filtering_witness :
    ∃ (h : Nat) (st1 : State) (z z1 : ZapLogger),
      (UseLogger (fun _ => none) (run State.init []) "json" "a.log" true "warn").1 =
        Except.ok (some h) ∧
      Logger.entry Severity.Warn
          (run (UseLogger (fun _ => none) (run State.init []) "json" "a.log" true "warn").2 [])
          (some h) "disk low" [] = Except.ok st1 ∧
      engineOf
          (run (UseLogger (fun _ => none) (run State.init []) "json" "a.log" true "warn").2 [])
          (some h) = some z ∧
      engineOf st1 (some h) = some z1 ∧
      z1.writtenTo "a.log" = z.writtenTo "a.log" ++ [⟨WarnLevel, "disk low", []⟩] ∧
      z1.writtenTo "stdout" = z.writtenTo "stdout" ++ [⟨WarnLevel, "disk low", []⟩] ∧
      Logger.entry Severity.Info
          (run (UseLogger (fun _ => none) (run State.init []) "json" "a.log" true "warn").2 [])
          (some 0) "hello" [] =
        Except.ok
          (run (UseLogger (fun _ => none) (run State.init []) "json" "a.log" true "warn").2
            []) := by
  obtain ⟨h, h1, _, _, hpass, _, _, _⟩ :=
    C6_severity_filtering (fun _ => none) "json" "a.log" true "warn" [] [] Severity.Warn
      "disk low" [] rfl rfl
  obtain ⟨st1, z, z1, e1, e2, e3, e4, e5, _⟩ := hpass (by decide)
  refine ⟨h, st1, z, z1, h1, e1, e2, e3, e4, e5 rfl, ?_⟩
  rfl

/-- C7 (destination set).  The output paths of the configuration `UseLogger`
builds are the list of "stdout" and the file path when the terminal flag is
true and the list of the file path alone when it is false; they do not depend
on the format or the level; and the engine constructed by a first call has
these output paths. -/
theorem C7_destination_set (f p : String) (l : String) :
    (configOf f p true l).OutputPaths = ["stdout", p] ∧
    (configOf f p false l).OutputPaths = [p] ∧
    (∀ (t : Bool) (f2 l2 : String),
      (configOf f2 p t l2).OutputPaths = (configOf f p t l).OutputPaths) ∧
    (∀ (t : Bool) (b : Build), b (configOf f p t l) = none →
      (engineOf (UseLogger b State.init f p t l).2
          (UseLogger b State.init f p t l).2.logger).map (fun z => z.cfg.OutputPaths) =
        some (if t then ["stdout", p] else [p])) := by
  refine ⟨rfl, rfl, fun t f2 l2 => rfl, ?_⟩
  intro t b hb
  rw [UseLogger_first_ok b State.init f p t l rfl hb]
  cases t <;> rfl

/-- C7, at a concrete input: the engine built for `app.log` without terminal
echo writes to `app.log` only. -/
theorem C7_destination_set_witness :
    (engineOf (UseLogger (fun _ => none) State.init "console" "app.log" false "debug").2
        (UseLogger (fun _ => none) State.init "console" "app.log" false "debug").2.logger).map
      (fun z => z.cfg.OutputPaths) = some ["app.log"] :=
  (C7_destination_set "console" "app.log" "debug").2.2.2 false (fun _ => none) rfl

/-- C8 (destination routing), evaluated where it fails.  The log file argument
is the name "stdout" and the terminal flag is false, which the doc comment of
`UseLogger` describes as writing to the file only.  The output paths are then
the single name "stdout", so the terminal is a configured destination, and a
record logged through the returned handle is written to it. -/
theorem C8_terminal_as_file_path :
    (UseLogger (fun _ => none) State.init "json" "stdout" false "info").1 =
      Except.ok (some 0) ∧
    (configOf "json" "stdout" false "info").OutputPaths = ["stdout"] ∧
    "stdout" ∈ (configOf "json" "stdout" false "info").OutputPaths ∧
    (engineOf
        (run (UseLogger (fun _ => none) State.init "json" "stdout" false "info").2
          [Call.log Severity.Info (some 0) "hello" []]) (some 0)).map
      (fun z => z.writtenTo "stdout") = some [⟨InfoLevel, "hello", []⟩] := by
  refine ⟨rfl, rfl, ?_, rfl⟩
  decide

/-- C9 (Close and the log operations leave the singleton untouched).  In every
reachable state that holds a handle, any call `c` into the package, so a call
of `Close` or of an entry point on any receiver and with any arguments, leaves
`logger` and the done flag of `once` as they were, and `UseLogger` returns the
same handle before and after it.  `Close` on the handle succeeds and keeps the handle pointing to the same
engine, and an entry point called after it succeeds and hands its record to
that engine.  After any further history of calls `logger` is still the same
handle and the done flag is still set. -/
theorem C9_singleton_frame (calls more : List Call) (c : Call) (b : Build) (f p : String)
    (t : Bool) (l : String) (v : Severity) (msg : String) (fields : List Field)
    (hs : (run State.init calls).logger ≠ none) :
    let s := run State.init calls
    (step s c).logger = s.logger ∧ (step s c).once = s.once ∧
    (UseLogger b s f p t l).1 = Except.ok s.logger ∧
    (UseLogger b (step s c) f p t l).1 = Except.ok s.logger ∧
    (∃ (s1 s2 : State) (z : ZapLogger),
      Logger.Close s s.logger = Except.ok s1 ∧ s1.logger = s.logger ∧
      s1.loggers = s.loggers ∧ engineOf s1 s.logger = some z ∧
      Logger.entry v s1 s.logger msg fields = Except.ok s2 ∧
      s2.logger = s.logger ∧ s2.loggers = s.loggers ∧
      engineOf s2 s.logger = some (z.log v.level msg fields)) ∧
    (run s more).logger = s.logger ∧ (run s more).once = true := by
  intro s
  have hinit : ∃ cfg, Initialised cfg s := by
    rcases reachable_cases calls with ⟨_, h0⟩ | ⟨_, hf | hi⟩
    · exfalso
      apply hs
      rw [h0]
      rfl
    · exact absurd hf.2.1 hs
    · exact hi
  obtain ⟨cfg, hi⟩ := hinit
  have hstep := Initialised_step cfg s c hi
  have hmore := Initialised_run cfg more s hi
  have hlog : s.logger = some 0 := hi.2.1
  refine ⟨?_, ?_, ?_, ?_, ?_, ?_, hmore.1⟩
  · rw [hstep.2.1, hlog]
  · rw [hstep.1, hi.1]
  · rw [UseLogger_done b s f p t l hi.1]
  · rw [UseLogger_done b (step s c) f p t l hstep.1, hstep.2.1, hlog]
  · obtain ⟨z, hz, hcfg, hclose⟩ := Close_Initialised cfg s hi
    have hi1 : Initialised cfg { s with engines := [z.Sync] } :=
      ⟨hi.1, hi.2.1, hi.2.2.1, hi.2.2.2.1, z.Sync, rfl, hcfg⟩
    obtain ⟨z1, hz1, _, heng1, hentry⟩ := entry_Initialised cfg _ hi1 v msg fields
    refine ⟨{ s with engines := [z.Sync] },
      { s with engines := [z1.log v.level msg fields] }, z1, ?_, rfl, rfl, ?_, ?_, rfl, rfl, ?_⟩
    · exact (congrArg (Logger.Close s) hlog).trans hclose
    · exact (congrArg (engineOf _) hlog).trans heng1
    · exact (congrArg (fun h => Logger.entry v _ h msg fields) hlog).trans hentry
    · refine (congrArg (engineOf _) hlog).trans ?_
      simp [engineOf, hi.2.2.2.1]
  · rw [hmore.2.1, hlog]

/-- C9, at a concrete input: after an initialisation, an Info call and a
Close, a Warn call leaves `logger` and the done flag alone, and a following
`UseLogger` with other arguments returns the stored handle. -/
theorem C9_singleton_frame_witness :
    (step (run State.init [Call.useLogger (fun _ => none) "json" "a.log" true "info",
        Call.log Severity.Info (some 0) "up" [], Call.close (some 0)])
      (Call.log Severity.Warn (some 0) "late" [])).logger = some 0 ∧
    (UseLogger (fun _ => some "denied")
      (step (run State.init [Call.useLogger (fun _ => none) "json" "a.log" true "info",
          Call.log Severity.Info (some 0) "up" [], Call.close (some 0)])
        (Call.log Severity.Warn (some 0) "late" []))
      "console" "b.log" false "debug").1 = Except.ok (some 0) := by
  obtain ⟨h1, _, _, h4, _⟩ :=
    C9_singleton_frame [Call.useLogger (fun _ => none) "json" "a.log" true "info",
        Call.log Severity.Info (some 0) "up" [], Call.close (some 0)] []
      (Call.log Severity.Warn (some 0) "late" []) (fun _ => some "denied") "console" "b.log"
      false "debug" Severity.Debug "x" [] (by decide)
  exact ⟨h1, h4⟩

end LoggerFacade
